import Mathlib

/-!
Verification development for the ClearCastFX frame-relay server.

The repository contains three implementations of the relay server:
* `src/app/videofx_server.cpp`, first document ("VideoFX Studio") — modelled in
  namespace `Vfx1`;
* `src/app/videofx_server.cpp`, second document ("BluCast") — modelled in
  namespace `Vfx2`;
* `src/app/server.cpp` ("BluCast Server") — modelled in namespace `Srv`.

Commands are modelled over `List Char` (the bytes read from the command FIFO).
Machine integers are modelled as `Int` with the `std::stoi` range check made
explicit.  Floating-point values (the blur strength) are represented by the
source text that produced them, because no claim depends on float arithmetic.
The proprietary NVIDIA VideoFX calls are external collaborators: they are
modelled as an explicit record of functions (`VendorOps`) passed into the
frame-processing code, with `none` results standing for a failing
`NvVFX_Run`.
-/

namespace ClearCast

/-- Bytes of a string literal, used to write command text as `List Char`. -/
def chars (s : String) : List Char := s.data

/-- `s.rfind(p, 0) == 0` / `s.substr(0, n) == p`: the command starts with
the given prefix. -/
def hasPrefix : List Char → List Char → Bool
  | [], _ => true
  | p :: ps, cs =>
    match cs with
    | [] => false
    | c :: cs => (p == c) && hasPrefix ps cs

/-- Model of C `isdigit` on the characters relevant to command payloads. -/
def isDigitChar (c : Char) : Bool := ('0' ≤ c) && (c ≤ '9')

/-- Model of C `isspace` (the whitespace skipped by `std::stoi` / `fscanf`). -/
def isSpaceChar (c : Char) : Bool :=
  (c = ' ') || (c = '\t') || (c = '\n') || (c = '\x0b') || (c = '\x0c') || (c = '\r')

/-- Accumulate a decimal digit run into a natural number, most significant first. -/
def digitsToNat : List Char → Nat → Nat
  | [], acc => acc
  | c :: cs, acc => digitsToNat cs (10 * acc + (c.toNat - 48))

/-- Smallest value of a C `int` (the type produced by `std::stoi`). -/
def intMin : Int := -2147483648

/-- Largest value of a C `int`. -/
def intMax : Int := 2147483647

/-- Digit-run part of `std::stoi`: `none` models a thrown exception
(`std::invalid_argument` when no digits are present, `std::out_of_range`
when the value does not fit in `int`).  Trailing non-digit characters are
ignored, as `std::stoi` ignores them. -/
def stoiCore (sign : Int) (cs : List Char) : Option Int :=
  let ds := cs.takeWhile isDigitChar
  if ds.isEmpty then none
  else
    let v : Int := sign * (digitsToNat ds 0 : Nat)
    if intMin ≤ v ∧ v ≤ intMax then some v else none

/-- Model of `std::stoi` applied to a command payload: skip leading
whitespace, accept one optional sign, then require at least one digit.
`none` models a thrown exception. -/
def stoiChars (s : List Char) : Option Int :=
  let t := s.dropWhile isSpaceChar
  match t with
  | '-' :: rest => stoiCore (-1) rest
  | '+' :: rest => stoiCore 1 rest
  | _ => stoiCore 1 t

/-- Whether `std::stof` succeeds on the payload (skip whitespace and an
optional sign; then a digit, or a decimal point followed by a digit, must
follow).  Hexadecimal, infinity and nan spellings are omitted: no command in
the repository or its scripts uses them.  The parsed float value itself is
never needed by a claim, so only success is modelled. -/
def stofParses (s : List Char) : Bool :=
  let t := s.dropWhile isSpaceChar
  let t := match t with
    | '-' :: r => r
    | '+' :: r => r
    | u => u
  match t with
  | [] => false
  | c :: r =>
    if isDigitChar c then true
    else if c = '.' then
      match r with
      | d :: _ => isDigitChar d
      | [] => false
    else false

/-- A captured video frame: `cv::Mat` dimensions plus an abstract identifier
standing for the pixel contents.  Frame equality models byte-for-byte
equality of the (pre-format-conversion) pixel data. -/
structure Frame where
  w : Int
  h : Int
  ident : Nat
deriving DecidableEq

/-- The external NVIDIA VideoFX collaborator, as a record of opaque
operations.  `greenScreenRun` is the segmentation inference
(`NvVFX_Run` on the green-screen effect): `none` models a non-success
status, `some m` the produced matte.  The compositing functions
(GPU composites and the CPU pixel loops, whose float arithmetic is not
modelled) are opaque frame transformers.  `uninitFrame` stands for the
contents of a `result` buffer no switch case wrote to. -/
structure VendorOps where
  greenScreenRun : Frame → Option Frame
  matteToBGR : Frame → Frame
  compositeOverConstant : Frame → Frame → Nat × Nat × Nat → Frame
  lightComposite : Frame → Frame → Frame
  compositeBG : Frame → Frame → Frame → Frame
  bgMissing : Frame → Frame → Frame
  blurRun : Frame → Frame → Option Frame
  cpuBlur : Frame → Frame → Frame
  artifactRun : Frame → Option Frame
  denoiseMissing : Frame → Frame
  uninitFrame : Frame
  blurEffPresent : Bool
  artifactInited : Bool

/-- Observable actions of one relay-loop iteration. -/
inductive Ev where
  | camRelease
  | camOpenTry
  | camOpened (w h : Int)
  | allocBuffers (w h : Int)
  | effectRun
  | vcamWrite (f : Frame)
  | idleWrite (w h : Int)
deriving DecidableEq

/-- Whether an event is a write to the virtual-camera device. -/
def Ev.isVcamWrite : Ev → Bool
  | .vcamWrite _ => true
  | .idleWrite _ _ => true
  | _ => false

/-- Whether an event is a GPU-buffer (re)allocation. -/
def Ev.isAlloc : Ev → Bool
  | .allocBuffers _ _ => true
  | _ => false

/-- Number of buffer (re)allocations in an event trace. -/
def countAlloc (evs : List Ev) : Nat := (evs.filter Ev.isAlloc).length

namespace Vfx1

/-- Global state of the first `videofx_server.cpp` document: the atomics and
mutex-guarded fields declared at file scope, with their initializers. -/
structure St where
  running : Bool := true
  compMode : Int := 5
  blurStrength : List Char := chars "0.5"
  vcamEnabled : Bool := true
  vcamConsumers : Int := 0
  showPreview : Bool := false
  showOverlay : Bool := false
  bgFile : List Char := []
  bgChanged : Bool := false
deriving DecidableEq

/-- Initial global state (the C++ static initializers). -/
def St.init : St := {}

/-- One command line, as dispatched by `commandListener` in the first
document.  `Except.error ()` models an exception escaping the handler:
`std::stoi` / `std::stof` are called without try/catch in the `MODE:` and
`BLUR:` branches, and an uncaught exception in the listener thread calls
`std::terminate`. -/
def handleLine (st : St) (cmd : List Char) : Except Unit St :=
  if cmd = chars "QUIT" then .ok { st with running := false }
  else if hasPrefix (chars "VCAM_CONSUMERS:") cmd then
    let consumers := (stoiChars (cmd.drop 15)).getD 0
    let consumers := if consumers < 0 then 0 else consumers
    .ok { st with vcamConsumers := consumers }
  else if hasPrefix (chars "VCAM_OPENERS:") cmd then
    let openers := (stoiChars (cmd.drop 13)).getD 0
    let consumers := openers - 1
    let consumers := if consumers < 0 then 0 else consumers
    .ok { st with vcamConsumers := consumers }
  else if cmd.take 5 = chars "MODE:" then
    match stoiChars (cmd.drop 5) with
    | none => .error ()
    | some m => .ok { st with compMode := m }
  else if cmd.take 3 = chars "BG:" then
    .ok { st with bgFile := cmd.drop 3, bgChanged := true }
  else if cmd.take 5 = chars "BLUR:" then
    if stofParses (cmd.drop 5) then .ok { st with blurStrength := cmd.drop 5 }
    else .error ()
  else if cmd = chars "VCAM:on" then .ok { st with vcamEnabled := true }
  else if cmd = chars "VCAM:off" then .ok { st with vcamEnabled := false }
  else if cmd = chars "PREVIEW:on" then .ok { st with showPreview := true }
  else if cmd = chars "PREVIEW:off" then .ok { st with showPreview := false }
  else if cmd = chars "OVERLAY:on" then .ok { st with showOverlay := true }
  else if cmd = chars "OVERLAY:off" then .ok { st with showOverlay := false }
  else .ok st

/-- The listener's treatment of one chunk returned by `read`: a single
trailing newline is replaced by NUL, then the whole remaining buffer is
dispatched as one command string. -/
def stripTrailingNL (cs : List Char) : List Char :=
  match cs.getLast? with
  | some c => if c = '\n' then cs.dropLast else cs
  | none => cs

/-- One `read` worth of bytes, handled as the first document handles it. -/
def handleChunk (st : St) (chunk : List Char) : Except Unit St :=
  handleLine st (stripTrailingNL chunk)

/-- Thread-local state of `VideoFXServer::run` plus the `VideoFXServer`
members the loop touches.  `vcamNegotiated` records the geometry passed to
the sink's `VIDIOC_S_FMT` on the most recent successful negotiation. -/
structure Loop where
  cameraActive : Bool := false
  buffersAllocated : Bool := false
  previewCreated : Bool := false
  width : Int := 0
  height : Int := 0
  lastNeedCamera : Bool := false
  vcamOpen : Bool := false
  vcamNegotiated : Option (Int × Int) := none
  inited : Bool := true
  bgImg : Option Frame := none
deriving DecidableEq

/-- Initial loop state (members as set before the loop, after a successful
`init`). -/
def Loop.init : Loop := {}

/-- Environment of one loop iteration: the outcomes of the device and
vendor-library calls the iteration may perform. -/
structure Env where
  vcamOpenOk : Bool
  vcamFmtOk : Bool
  camOpenOk : Bool
  negotiatedW : Int
  negotiatedH : Int
  allocOk : Bool
  frame : Option Frame
  bgLoad : Option Frame
  key : Option Char
  ops : VendorOps

/-- The `needCamera` predicate computed at the top of every iteration:
`previewWanted || (vcamEnabled && consumers > 0)`. -/
def needCamera (st : St) : Bool :=
  st.showPreview || (st.vcamEnabled && st.vcamConsumers > 0)

/-- `initVirtualCamera(w, h)`: no-op when the descriptor is already open;
otherwise open the device and, if `VIDIOC_S_FMT` succeeds, record the
negotiated geometry (on an ioctl failure the device keeps its prior
format). -/
def vcamInit (loop : Loop) (env : Env) (w h : Int) : Loop :=
  if loop.vcamOpen then loop
  else if env.vcamOpenOk then
    if env.vcamFmtOk then { loop with vcamOpen := true, vcamNegotiated := some (w, h) }
    else { loop with vcamOpen := true }
  else loop

/-- `VideoFXServer::processFrame`: run the green-screen inference; on a
failing `NvVFX_Run` copy the source into the result and return; otherwise
composite according to the mode switch. -/
def processFrame (ops : VendorOps) (bgImg : Option Frame) (src : Frame) (mode : Int) :
    Frame :=
  match ops.greenScreenRun src with
  | none => src
  | some matte =>
    if mode = 4 then src
    else if mode = 0 then ops.matteToBGR matte
    else if mode = 2 then ops.compositeOverConstant src matte (0, 255, 0)
    else if mode = 3 then ops.compositeOverConstant src matte (255, 255, 255)
    else if mode = 1 then ops.lightComposite src matte
    else if mode = 5 then
      match bgImg with
      | some bg => ops.compositeBG src bg matte
      | none => ops.bgMissing src matte
    else if mode = 6 then
      if ops.blurEffPresent then
        match ops.blurRun src matte with
        | some r => r
        | none => src
      else ops.cpuBlur src matte
    else ops.uninitFrame

/-- The `!needCamera` branch: release the capture if it is active, destroy
the preview window, write one idle frame (always 1280x720) when the sink is
open and the virtual camera is enabled, then sleep one second. -/
def idleStep (st : St) (loop : Loop) : Loop × List Ev :=
  let rel :=
    if loop.cameraActive then ({ loop with cameraActive := false }, [Ev.camRelease])
    else (loop, [])
  let l1 := { rel.1 with previewCreated := false }
  let evs :=
    if st.vcamEnabled && l1.vcamOpen then rel.2 ++ [Ev.idleWrite 1280 720] else rel.2
  (l1, evs)

/-- The `!cameraActive` branch: open the camera, read back the negotiated
geometry, open the sink at that geometry when enabled, allocate the GPU
buffers on the first activation (`return 1` from `run` if any allocation
fails), create the preview window if requested.  `Except.error 1` models the
early `return 1`. -/
def activateStep (st : St) (loop : Loop) (env : Env) : Except Nat Loop × List Ev :=
  if !env.camOpenOk then (.ok loop, [Ev.camOpenTry])
  else
    let w := env.negotiatedW
    let h := env.negotiatedH
    let loop := { loop with width := w, height := h }
    let loop := if st.vcamEnabled then vcamInit loop env w h else loop
    let evs := [Ev.camOpenTry, Ev.camOpened w h]
    if !loop.buffersAllocated then
      if !env.allocOk then (.error 1, evs)
      else
        let loop := { loop with buffersAllocated := true }
        let loop :=
          if st.showPreview && !loop.previewCreated then
            { loop with previewCreated := true }
          else loop
        (.ok { loop with cameraActive := true }, evs ++ [Ev.allocBuffers w h])
    else
      let loop :=
        if st.showPreview && !loop.previewCreated then
          { loop with previewCreated := true }
        else loop
      (.ok { loop with cameraActive := true }, evs)

/-- The background dirty-flag consumption at the top of the frame body:
when set (and a path is present), clear the flag and replace the cached
background with the `imread` result (cleared on a failed load). -/
def bgStep (st : St) (loop : Loop) (env : Env) : St × Loop :=
  if st.bgChanged && !st.bgFile.isEmpty then
    ({ st with bgChanged := false }, { loop with bgImg := env.bgLoad })
  else (st, loop)

/-- The preview-window create/destroy toggling in the frame body. -/
def previewToggle (st : St) (l : Loop) : Loop :=
  if st.showPreview && !l.previewCreated then { l with previewCreated := true }
  else if !st.showPreview && l.previewCreated then { l with previewCreated := false }
  else l

/-- From `cap >> frame` to the end of the loop body: consume the background
dirty flag, run the effect unless the mode is `compNone`, toggle the preview
window, write the result to the virtual camera when enabled, handle the
preview-window keyboard. -/
def frameStep (st : St) (loop : Loop) (env : Env) (f : Frame) : St × Loop × List Ev :=
  let sb := bgStep st loop env
  let pr :=
    if sb.1.compMode ≠ 4 && sb.2.inited then
      (processFrame env.ops sb.2.bgImg f sb.1.compMode, [Ev.effectRun])
    else (f, ([] : List Ev))
  let l2 := previewToggle sb.1 sb.2
  let evs := if l2.vcamOpen && sb.1.vcamEnabled then pr.2 ++ [Ev.vcamWrite pr.1] else pr.2
  let st2 :=
    if l2.previewCreated then
      match env.key with
      | some k => if k = 'q' || k = 'Q' || k.toNat = 27 then { sb.1 with running := false }
                  else sb.1
      | none => sb.1
    else sb.1
  (st2, l2, evs)

/-- The `needCamera` part of the loop body: activate the capture when it is
not active, then read and process one frame. -/
def activeBranch (st : St) (loop : Loop) (env : Env) :
    Except Nat (St × Loop) × List Ev :=
  let p := if !loop.cameraActive then activateStep st loop env else (.ok loop, [])
  match p.1 with
  | .error c => (.error c, p.2)
  | .ok l3 =>
    if !l3.cameraActive then (.ok (st, l3), p.2)
    else
      match env.frame with
      | none => (.ok (st, l3), p.2)
      | some f =>
        let (st2, l4, evs2) := frameStep st l3 env f
        (.ok (st2, l4), p.2 ++ evs2)

/-- One full iteration of the `while (g_running)` body of
`VideoFXServer::run`.  `Except.error code` models an early `return code`
from `run` (which becomes the process exit code). -/
def iteration (st : St) (loop : Loop) (env : Env) :
    Except Nat (St × Loop) × List Ev :=
  let loop :=
    if st.vcamEnabled && !loop.vcamOpen then vcamInit loop env 1280 720 else loop
  let nc := needCamera st
  let loop := { loop with lastNeedCamera := nc }
  if !nc then
    let (l2, evs) := idleStep st loop
    (.ok (st, l2), evs)
  else activeBranch st loop env

/-- An interleaving step of the two-thread process: a chunk arriving on the
command FIFO, or one relay-loop iteration with a given environment. -/
inductive Act where
  | cmd (chunk : List Char)
  | tick (env : Env)

/-- How the process run ends on a given interleaving.  `done code` is a
`return` from `run` reaching `main` (the process exit code); `live` means
the trace ended with the loop still running; `crashed` is an uncaught
exception in the listener thread (`std::terminate`). -/
inductive Outcome where
  | done (code : Nat)
  | live
  | crashed
deriving DecidableEq

/-- Execute an interleaving of listener chunks and relay iterations,
starting from the given global and loop state.  Both loops observe
`g_running` at the top of each round; a false flag ends `run` with
return value 0. -/
def runSteps (st : St) (loop : Loop) : List Act → Outcome
  | [] => if st.running then .live else .done 0
  | a :: rest =>
    if !st.running then .done 0
    else
      match a with
      | .cmd c =>
        match handleChunk st c with
        | .error _ => .crashed
        | .ok st2 => runSteps st2 loop rest
      | .tick e =>
        match iteration st loop e with
        | (.error code, _) => .done code
        | (.ok (st2, l2), _) => runSteps st2 l2 rest

/-- `main` of the first document: a failed `VideoFXServer::init` returns 1;
otherwise the process exit code is whatever `run` returns. -/
def mainModel (initOk : Bool) (acts : List Act) : Outcome :=
  if !initOk then .done 1 else runSteps St.init Loop.init acts

end Vfx1

namespace Vfx2

/-- Global state of the second `videofx_server.cpp` document ("BluCast"),
with its static initializers. -/
structure St where
  running : Bool := true
  compMode : Int := 5
  blurStrength : List Char := chars "0.5"
  outputFps : Int := 30
  vcamEnabled : Bool := true
  vcamConsumers : Int := 0
  showPreview : Bool := false
  showOverlay : Bool := false
  embeddedPreview : Bool := true
  bgFile : List Char := []
  bgChanged : Bool := false
  cameraWidth : Int := 1280
  cameraHeight : Int := 720
  cameraFps : Int := 30
  cameraSettingsChanged : Bool := false
  inputDevice : List Char := []
  deviceChanged : Bool := false
deriving DecidableEq

/-- Initial global state. -/
def St.init : St := {}

/-- The `RESOLUTION:<W>x<H>` payload parse: split at the first `x`, parse
both halves with `std::stoi` inside one try block, and accept only positive
dimensions bounded by 4096x2160. -/
def parseResolution (res : List Char) : Option (Int × Int) :=
  let pre := res.takeWhile (fun c => c ≠ 'x')
  if pre.length = res.length then none
  else
    match stoiChars pre, stoiChars (res.drop (pre.length + 1)) with
    | some w, some h =>
      if w > 0 && h > 0 && w ≤ 4096 && h ≤ 2160 then some (w, h) else none
    | _, _ => none

/-- One command line, as dispatched by the second document's
`commandListener`.  As in the first document, `MODE:` and `BLUR:` parse
without try/catch (`Except.error ()` models the uncaught exception), while
the consumer-count, resolution and fps branches catch all exceptions. -/
def handleLine (st : St) (cmd : List Char) : Except Unit St :=
  if cmd = chars "QUIT" then .ok { st with running := false }
  else if hasPrefix (chars "VCAM_CONSUMERS:") cmd then
    let consumers := (stoiChars (cmd.drop 15)).getD 0
    let consumers := if consumers < 0 then 0 else consumers
    .ok { st with vcamConsumers := consumers }
  else if hasPrefix (chars "VCAM_OPENERS:") cmd then
    let openers := (stoiChars (cmd.drop 13)).getD 0
    let consumers := openers - 1
    let consumers := if consumers < 0 then 0 else consumers
    .ok { st with vcamConsumers := consumers }
  else if cmd.take 5 = chars "MODE:" then
    match stoiChars (cmd.drop 5) with
    | none => .error ()
    | some m => .ok { st with compMode := m }
  else if cmd.take 3 = chars "BG:" then
    .ok { st with bgFile := cmd.drop 3, bgChanged := true }
  else if cmd.take 5 = chars "BLUR:" then
    if stofParses (cmd.drop 5) then .ok { st with blurStrength := cmd.drop 5 }
    else .error ()
  else if cmd = chars "VCAM:on" then .ok { st with vcamEnabled := true }
  else if cmd = chars "VCAM:off" then .ok { st with vcamEnabled := false }
  else if cmd = chars "PREVIEW:on" then .ok { st with showPreview := true }
  else if cmd = chars "PREVIEW:off" then .ok { st with showPreview := false }
  else if cmd = chars "OVERLAY:on" then .ok { st with showOverlay := true }
  else if cmd = chars "OVERLAY:off" then .ok { st with showOverlay := false }
  else if cmd = chars "EMBEDDED:on" then .ok { st with embeddedPreview := true }
  else if cmd = chars "EMBEDDED:off" then .ok { st with embeddedPreview := false }
  else if hasPrefix (chars "DEVICE:") cmd then
    let devPath := cmd.drop 7
    if !devPath.isEmpty && devPath ≠ st.inputDevice then
      .ok { st with inputDevice := devPath, deviceChanged := true }
    else .ok st
  else if hasPrefix (chars "RESOLUTION:") cmd then
    match parseResolution (cmd.drop 11) with
    | some (w, h) =>
      .ok { st with cameraWidth := w, cameraHeight := h, cameraSettingsChanged := true }
    | none => .ok st
  else if hasPrefix (chars "FPS:") cmd then
    match stoiChars (cmd.drop 4) with
    | some fps =>
      if fps > 0 && fps ≤ 120 then
        .ok { st with cameraFps := fps, outputFps := fps, cameraSettingsChanged := true }
      else .ok st
    | none => .ok st
  else if hasPrefix (chars "OUTPUT_FPS:") cmd then
    match stoiChars (cmd.drop 11) with
    | some fps => if fps > 0 && fps ≤ 120 then .ok { st with outputFps := fps } else .ok st
    | none => .ok st
  else .ok st

/-- One `read` chunk, handled as in the second document (identical single
command treatment as the first document). -/
def handleChunk (st : St) (chunk : List Char) : Except Unit St :=
  handleLine st (Vfx1.stripTrailingNL chunk)

/-- Loop-local members of the second document's `run` plus the
`VideoFXServer` members it touches.  `vcamW`/`vcamH` are the `_vcamWidth` /
`_vcamHeight` members; `bufW`/`bufH` are the dimensions the GPU buffers were
allocated at (0 when deallocated). -/
structure Loop where
  cameraActive : Bool := false
  buffersAllocated : Bool := false
  previewCreated : Bool := false
  width : Int := 0
  height : Int := 0
  currentDevice : List Char := []
  lastNeedCamera : Bool := false
  vcamOpen : Bool := false
  vcamW : Int := 0
  vcamH : Int := 0
  bufW : Int := 0
  bufH : Int := 0
  inited : Bool := true
  bgImg : Option Frame := none
deriving DecidableEq

/-- Initial loop state. -/
def Loop.init : Loop := {}

/-- Iteration environment: outcomes of the device and vendor calls. -/
structure Env where
  vcamOpenOk : Bool
  vcamFmtOk : Bool
  camOpenOk : Bool
  negotiatedW : Int
  negotiatedH : Int
  allocOk : Bool
  frame : Option Frame
  bgLoad : Option Frame
  key : Option Char
  ops : VendorOps

/-- The second document's `needCamera` predicate:
`previewWanted || embeddedPreview || (vcamEnabled && consumers > 0)`. -/
def needCamera (st : St) : Bool :=
  st.showPreview || st.embeddedPreview || (st.vcamEnabled && st.vcamConsumers > 0)

/-- The second document's `initVirtualCamera(w, h)`: close and reopen when
the stored geometry differs; on a successful open with a failing
`VIDIOC_S_FMT` the function returns before storing the new geometry. -/
def vcamInit (loop : Loop) (env : Env) (w h : Int) : Loop :=
  let loop :=
    if loop.vcamOpen && (loop.vcamW ≠ w || loop.vcamH ≠ h) then
      { loop with vcamOpen := false }
    else loop
  if loop.vcamOpen then loop
  else if env.vcamOpenOk then
    if env.vcamFmtOk then { loop with vcamOpen := true, vcamW := w, vcamH := h }
    else { loop with vcamOpen := true }
  else loop

/-- The second document's `writeToVirtualCamera`: skip entirely when the
descriptor is closed or the virtual camera is disabled; renegotiate the sink
format in place when the frame's dimensions differ from the stored ones
(keeping the old geometry if the ioctl fails), then write the frame. -/
def vcamWriteStep (st : St) (loop : Loop) (env : Env) (f : Frame) : Loop × List Ev :=
  if loop.vcamOpen && st.vcamEnabled then
    let loop :=
      if f.w ≠ loop.vcamW || f.h ≠ loop.vcamH then
        if env.vcamFmtOk then { loop with vcamW := f.w, vcamH := f.h } else loop
      else loop
    (loop, [Ev.vcamWrite f])
  else (loop, [])

/-- The second document's `processFrame`, including the denoise mode. -/
def processFrame (ops : VendorOps) (bgImg : Option Frame) (src : Frame) (mode : Int) :
    Frame :=
  match ops.greenScreenRun src with
  | none => src
  | some matte =>
    if mode = 4 then src
    else if mode = 0 then ops.matteToBGR matte
    else if mode = 2 then ops.compositeOverConstant src matte (0, 255, 0)
    else if mode = 3 then ops.compositeOverConstant src matte (255, 255, 255)
    else if mode = 1 then ops.lightComposite src matte
    else if mode = 5 then
      match bgImg with
      | some bg => ops.compositeBG src bg matte
      | none => ops.bgMissing src matte
    else if mode = 6 then
      if ops.blurEffPresent then
        match ops.blurRun src matte with
        | some r => r
        | none => src
      else ops.cpuBlur src matte
    else if mode = 7 then
      if ops.artifactInited then
        match ops.artifactRun src with
        | some r => r
        | none => src
      else ops.denoiseMissing src
    else ops.uninitFrame

/-- One full iteration of the second document's `while (g_running)` body.
`Except.error 1` models an early `return 1` on a GPU buffer allocation
failure. -/
def iteration (st : St) (loop : Loop) (env : Env) :
    Except Nat (St × Loop) × List Ev :=
  let loop :=
    if st.vcamEnabled && !loop.vcamOpen then vcamInit loop env 1280 720 else loop
  let nc := needCamera st
  let loop := { loop with lastNeedCamera := nc }
  if !nc then
    let (loop, evs) :=
      if loop.cameraActive then ({ loop with cameraActive := false }, [Ev.camRelease])
      else (loop, [])
    let loop := { loop with previewCreated := false }
    let evs :=
      if st.vcamEnabled && loop.vcamOpen then evs ++ [Ev.idleWrite 1280 720] else evs
    (.ok (st, loop), evs)
  else
    -- activation block (only when the camera is not active)
    let (st, actRes) :=
      if !loop.cameraActive then
        let st :=
          { st with deviceChanged := false }
        let loop :=
          if !st.inputDevice.isEmpty then { loop with currentDevice := st.inputDevice }
          else loop
        if !env.camOpenOk then (st, Sum.inl (loop, [Ev.camOpenTry]))
        else
          let w := env.negotiatedW
          let h := env.negotiatedH
          let loop := { loop with width := w, height := h }
          let loop := if st.vcamEnabled then vcamInit loop env w h else loop
          let evs := [Ev.camOpenTry, Ev.camOpened w h]
          if !loop.buffersAllocated then
            if !env.allocOk then (st, Sum.inr (evs : List Ev))
            else
              let loop :=
                { loop with buffersAllocated := true, bufW := w, bufH := h }
              let loop :=
                if st.showPreview && !loop.previewCreated then
                  { loop with previewCreated := true }
                else loop
              (st, Sum.inl ({ loop with cameraActive := true },
                            evs ++ [Ev.allocBuffers w h]))
          else
            let loop :=
              if st.showPreview && !loop.previewCreated then
                { loop with previewCreated := true }
              else loop
            (st, Sum.inl ({ loop with cameraActive := true }, evs))
      else (st, Sum.inl (loop, []))
    match actRes with
    | Sum.inr evs => (.error 1, evs)
    | Sum.inl (loop, evs) =>
      if !loop.cameraActive then (.ok (st, loop), evs)
      else
        -- device-change dirty flag
        if st.deviceChanged then
          let st := { st with deviceChanged := false }
          let (loop, evs2) :=
            ({ loop with cameraActive := false, buffersAllocated := false,
                         bufW := 0, bufH := 0 }, [Ev.camRelease])
          (.ok (st, loop), evs ++ evs2)
        -- camera-settings dirty flag: releases the capture but does NOT
        -- deallocate the GPU buffers nor clear buffersAllocated
        else if st.cameraSettingsChanged then
          let st := { st with cameraSettingsChanged := false }
          let (loop, evs2) := ({ loop with cameraActive := false }, [Ev.camRelease])
          (.ok (st, loop), evs ++ evs2)
        else
          match env.frame with
          | none => (.ok (st, loop), evs)
          | some f =>
            let (st, loop) :=
              if st.bgChanged && !st.bgFile.isEmpty then
                ({ st with bgChanged := false }, { loop with bgImg := env.bgLoad })
              else (st, loop)
            let mode := st.compMode
            let (result, evs2) :=
              if mode ≠ 4 && loop.inited then
                (processFrame env.ops loop.bgImg f mode, [Ev.effectRun])
              else (f, [])
            let loop :=
              if st.showPreview && !loop.previewCreated then
                { loop with previewCreated := true }
              else if !st.showPreview && loop.previewCreated then
                { loop with previewCreated := false }
              else loop
            let (loop, evs3) := vcamWriteStep st loop env result
            let st :=
              if loop.previewCreated then
                match env.key with
                | some k =>
                  if k = 'q' || k = 'Q' || k.toNat = 27 then { st with running := false }
                  else st
                | none => st
              else st
            (.ok (st, loop), evs ++ evs2 ++ evs3)

/-- Interleaving step for the second document. -/
inductive Act where
  | cmd (chunk : List Char)
  | tick (env : Env)

/-- Result of running an interleaving: the reached state, an early process
exit, or a listener crash. -/
inductive RunRes where
  | state (st : St) (loop : Loop)
  | exited (code : Nat)
  | crashed

/-- Execute an interleaving of listener chunks and relay iterations for the
second document, accumulating the relay's events. -/
def runAccum (st : St) (loop : Loop) : List Act → RunRes × List Ev
  | [] => (.state st loop, [])
  | a :: rest =>
    if !st.running then (.state st loop, [])
    else
      match a with
      | .cmd c =>
        match handleChunk st c with
        | .error _ => (.crashed, [])
        | .ok st2 => runAccum st2 loop rest
      | .tick e =>
        match iteration st loop e with
        | (.error code, evs) => (.exited code, evs)
        | (.ok (st2, l2), evs) =>
          let (r, evs2) := runAccum st2 l2 rest
          (r, evs ++ evs2)

end Vfx2

namespace Srv

/-- Global state of `server.cpp`, with its static initializers. -/
structure St where
  running : Bool := true
  windowVisible : Bool := true
  effectMode : Int := 6
  blurStrength : List Char := chars "0.5"
  cameraWidth : Int := 1280
  cameraHeight : Int := 720
  cameraFps : Int := 30
  cameraSettingsChanged : Bool := false
  inputDevice : List Char := []
  deviceChanged : Bool := false
  bgFile : List Char := []
  bgChanged : Bool := false
deriving DecidableEq

/-- Initial global state. -/
def St.init : St := {}

/-- `readConsumerCount`: read an integer with `fscanf("%d")` from the
consumers file (`none` models a missing file), defaulting to 0 when the
read fails, and clamping negatives to 0.  The `%d` conversion accepts the
same texts as `std::stoi`. -/
def readConsumerCount (file : Option (List Char)) : Int :=
  match file with
  | none => 0
  | some s =>
    let n := (stoiChars s).getD 0
    if n < 0 then 0 else n

/-- One command line, as dispatched by `server.cpp`'s `commandListener`.
Here `MODE:`, `BLUR:`, `RESOLUTION:` and `FPS:` all parse with no
try/catch, so a malformed payload raises (modelled by `Except.error ()`). -/
def handleLine (st : St) (cmd : List Char) : Except Unit St :=
  if cmd = chars "QUIT" then .ok { st with running := false }
  else if cmd = chars "WINDOW:visible" then .ok { st with windowVisible := true }
  else if cmd = chars "WINDOW:hidden" then .ok { st with windowVisible := false }
  else if hasPrefix (chars "MODE:") cmd then
    match stoiChars (cmd.drop 5) with
    | none => .error ()
    | some m => .ok { st with effectMode := m }
  else if hasPrefix (chars "BLUR:") cmd then
    if stofParses (cmd.drop 5) then .ok { st with blurStrength := cmd.drop 5 }
    else .error ()
  else if hasPrefix (chars "BG:") cmd then
    .ok { st with bgFile := cmd.drop 3, bgChanged := true }
  else if hasPrefix (chars "DEVICE:") cmd then
    let dev := cmd.drop 7
    if dev ≠ st.inputDevice then
      .ok { st with inputDevice := dev, deviceChanged := true }
    else .ok st
  else if hasPrefix (chars "RESOLUTION:") cmd then
    let res := cmd.drop 11
    let pre := res.takeWhile (fun c => c ≠ 'x')
    if pre.length = res.length then .ok st
    else
      match stoiChars pre with
      | none => .error ()
      | some w =>
        match stoiChars (res.drop (pre.length + 1)) with
        | none => .error ()
        | some h =>
          if w > 0 && h > 0 then
            .ok { st with cameraWidth := w, cameraHeight := h,
                          cameraSettingsChanged := true }
          else .ok st
  else if hasPrefix (chars "FPS:") cmd then
    match stoiChars (cmd.drop 4) with
    | none => .error ()
    | some fps =>
      if fps > 0 && fps ≤ 120 then
        .ok { st with cameraFps := fps, cameraSettingsChanged := true }
      else .ok st
  else .ok st

/-- `splitOn`-style split of a byte chunk at every newline, keeping empty
segments. -/
def splitNL : List Char → List (List Char)
  | [] => [[]]
  | c :: rest =>
    let r := splitNL rest
    if c = '\n' then [] :: r
    else
      match r with
      | [] => [[c]]
      | seg :: segs => (c :: seg) :: segs

/-- The successive tokens produced by `strtok(buf, "\n")`: the nonempty
newline-separated segments, in order. -/
def strtokLines (cs : List Char) : List (List Char) :=
  (splitNL cs).filter (fun l => !l.isEmpty)

/-- Dispatch a list of lines in order, stopping at the first uncaught
exception. -/
def handleLines (st : St) : List (List Char) → Except Unit St
  | [] => .ok st
  | l :: ls =>
    match handleLine st l with
    | .error e => .error e
    | .ok st2 => handleLines st2 ls

/-- One `read` chunk, handled as `server.cpp` handles it: a `strtok` loop
over the newline-separated tokens, each dispatched as one command. -/
def handleChunk (st : St) (chunk : List Char) : Except Unit St :=
  handleLines st (strtokLines chunk)

/-- Loop-local state of `server.cpp`'s `main` plus the `VirtualCamera` and
`VideoFXProcessor` members the loop touches.  `vcamW`/`vcamH`/`vcamFps` are
the `VirtualCamera::width_`/`height_` members and the negotiated fps;
`mainVcamW`/`mainVcamH` are `main`'s local `vcamW`/`vcamH` copies used in
the reallocation test; `bufW`/`bufH` are `VideoFXProcessor::bufWidth_` /
`bufHeight_` (0 when deallocated or when an allocation failed). -/
structure Loop where
  cameraActive : Bool := false
  buffersReady : Bool := false
  curW : Int := 0
  curH : Int := 0
  currentDevice : List Char := []
  lastNeedCamera : Bool := false
  vcamOpen : Bool := false
  vcamW : Int := 0
  vcamH : Int := 0
  vcamFps : Int := 0
  mainVcamW : Int := 1280
  mainVcamH : Int := 720
  mainVcamFps : Int := 30
  bufW : Int := 0
  bufH : Int := 0
  inited : Bool := true
  bgImg : Option Frame := none
deriving DecidableEq

/-- Initial loop state (after a successful `vfx.init`, before `vcam.open`). -/
def Loop.init : Loop := {}

/-- Iteration environment. -/
structure Env where
  consumersFile : Option (List Char)
  autoDetect : List Char
  camOpenOk : Bool
  negotiatedW : Int
  negotiatedH : Int
  allocOk : Bool
  vcamOpenOk : Bool
  frame : Option Frame
  bgLoad : Option Frame
  ops : VendorOps

/-- The idle-frame geometry rule of `VirtualCamera::writeIdleFrame`: the
last negotiated geometry, defaulting to 1280x720 where none was ever
stored. -/
def idleDims (w h : Int) : Int × Int :=
  (if w > 0 then w else 1280, if h > 0 then h else 720)

/-- `VirtualCamera::open(w, h, fps)`: close first when open at a different
geometry; no-op when open at the same geometry; otherwise open the device
and store the geometry (stored even when `VIDIOC_S_FMT` fails). -/
def vcamOpenOp (loop : Loop) (openOk : Bool) (w h fps : Int) : Loop :=
  let loop :=
    if loop.vcamOpen && (loop.vcamW ≠ w || loop.vcamH ≠ h) then
      { loop with vcamOpen := false }
    else loop
  if loop.vcamOpen then loop
  else if openOk then { loop with vcamOpen := true, vcamW := w, vcamH := h, vcamFps := fps }
  else loop

/-- `VideoFXProcessor::process`: pass through when not initialized or the
mode is `MODE_NONE`; pass through when the frame size disagrees with the
allocated buffers; run the green-screen inference, returning a clone of the
input on a failing `NvVFX_Run`; otherwise composite per the mode switch. -/
def process (ops : VendorOps) (bgImg : Option Frame) (inited : Bool) (bufW bufH : Int)
    (frame : Frame) (mode : Int) : Frame :=
  if !inited || mode = 4 then frame
  else if frame.w ≠ bufW || frame.h ≠ bufH then frame
  else
    match ops.greenScreenRun frame with
    | none => frame
    | some matte =>
      if mode = 0 then ops.matteToBGR matte
      else if mode = 2 then ops.compositeOverConstant frame matte (0, 255, 0)
      else if mode = 3 then ops.compositeOverConstant frame matte (255, 255, 255)
      else if mode = 1 then ops.lightComposite frame matte
      else if mode = 5 then
        match bgImg with
        | some bg => ops.compositeBG frame bg matte
        | none => ops.bgMissing frame matte
      else if mode = 6 then
        if ops.blurEffPresent then
          match ops.blurRun frame matte with
          | some r => r
          | none => frame
        else ops.uninitFrame
      else if mode = 7 then
        if ops.artifactInited then
          match ops.artifactRun frame with
          | some r => r
          | none => frame
        else frame
      else frame

/-- One full iteration of `server.cpp`'s main `while (g_running)` body.
No path exits the process: allocation failures are ignored by the caller
(`vfx.allocate`'s result is discarded and `buffersReady` is set anyway). -/
def iteration (st : St) (loop : Loop) (env : Env) : St × Loop × List Ev :=
  let consumers := readConsumerCount env.consumersFile
  let nc := st.windowVisible || consumers > 0
  let loop := { loop with lastNeedCamera := nc }
  if !nc then
    let rel :=
      if loop.cameraActive then ({ loop with cameraActive := false }, [Ev.camRelease])
      else (loop, [])
    let evs :=
      if rel.1.vcamOpen then
        rel.2 ++ [Ev.idleWrite (idleDims rel.1.vcamW rel.1.vcamH).1
                                (idleDims rel.1.vcamW rel.1.vcamH).2]
      else rel.2
    (st, rel.1, evs)
  else
    -- activation block
    let (st, loop, evs, opened) :=
      if !loop.cameraActive then
        let loop :=
          if !st.inputDevice.isEmpty then { loop with currentDevice := st.inputDevice }
          else loop
        let st := { st with deviceChanged := false }
        let loop :=
          if loop.currentDevice.isEmpty then { loop with currentDevice := env.autoDetect }
          else loop
        if !env.camOpenOk then (st, loop, [Ev.camOpenTry], false)
        else
          let w := env.negotiatedW
          let h := env.negotiatedH
          let loop := { loop with curW := w, curH := h }
          let evs := [Ev.camOpenTry, Ev.camOpened w h]
          let (loop, evs) :=
            if !loop.buffersReady || w ≠ loop.mainVcamW || h ≠ loop.mainVcamH then
              let loop :=
                if env.allocOk then { loop with bufW := w, bufH := h }
                else { loop with bufW := 0, bufH := 0 }
              ({ loop with buffersReady := true }, evs ++ [Ev.allocBuffers w h])
            else (loop, evs)
          let loop := vcamOpenOp loop env.vcamOpenOk w h st.cameraFps
          let loop :=
            { loop with mainVcamW := w, mainVcamH := h, mainVcamFps := st.cameraFps,
                        cameraActive := true }
          (st, loop, evs, true)
      else (st, loop, [], true)
    if !opened then (st, loop, evs)
    else
      if st.deviceChanged then
        let st := { st with deviceChanged := false }
        (st, { loop with cameraActive := false, buffersReady := false },
         evs ++ [Ev.camRelease])
      else if st.cameraSettingsChanged then
        let st := { st with cameraSettingsChanged := false }
        (st, { loop with cameraActive := false, buffersReady := false },
         evs ++ [Ev.camRelease])
      else
        let (st, loop) :=
          if st.bgChanged && !st.bgFile.isEmpty then
            ({ st with bgChanged := false }, { loop with bgImg := env.bgLoad })
          else (st, loop)
        match env.frame with
        | none => (st, loop, evs)
        | some f =>
          let result := process env.ops loop.bgImg loop.inited loop.bufW loop.bufH f
                          st.effectMode
          let evs :=
            if loop.vcamOpen then evs ++ [Ev.vcamWrite result] else evs
          (st, loop, evs)

/-- Interleaving step for `server.cpp`. -/
inductive Act where
  | cmd (chunk : List Char)
  | tick (env : Env)

/-- Result of running an interleaving of `server.cpp`'s two threads. -/
inductive RunRes where
  | state (st : St) (loop : Loop)
  | crashed

/-- Execute an interleaving of listener chunks and relay iterations for
`server.cpp`, accumulating the relay's events. -/
def runAccum (st : St) (loop : Loop) : List Act → RunRes × List Ev
  | [] => (.state st loop, [])
  | a :: rest =>
    if !st.running then (.state st loop, [])
    else
      match a with
      | .cmd c =>
        match handleChunk st c with
        | .error _ => (.crashed, [])
        | .ok st2 => runAccum st2 loop rest
      | .tick e =>
        let (st2, l2, evs) := iteration st loop e
        let (r, evs2) := runAccum st2 l2 rest
        (r, evs ++ evs2)

end Srv

/-! Helper instances, extractors and probe values used by the theorems and
their witnesses. -/

instance {ε α : Type _} [DecidableEq ε] [DecidableEq α] : DecidableEq (Except ε α) :=
  fun x y =>
    match x, y with
    | .error a, .error b =>
      if h : a = b then .isTrue (congrArg Except.error h)
      else .isFalse (fun c => h (Except.error.inj c))
    | .ok a, .ok b =>
      if h : a = b then .isTrue (congrArg Except.ok h)
      else .isFalse (fun c => h (Except.ok.inj c))
    | .error _, .ok _ => .isFalse (fun c => Except.noConfusion c)
    | .ok _, .error _ => .isFalse (fun c => Except.noConfusion c)

/-- Whether a command dispatch ended in an uncaught exception. -/
def isErrU {α : Type _} : Except Unit α → Bool
  | .error _ => true
  | .ok _ => false

/-- `cameraActive` of the loop state an iteration continues with (`none`
when the iteration was an early `return` from `run`). -/
def camActiveAfter (r : Except Nat (Vfx1.St × Vfx1.Loop) × List Ev) : Option Bool :=
  match r.1 with
  | .ok (_, l) => some l.cameraActive
  | .error _ => none

/-- `vcamOpen` of the loop state an iteration continues with. -/
def vcamOpenAfter (r : Except Nat (Vfx1.St × Vfx1.Loop) × List Ev) : Option Bool :=
  match r.1 with
  | .ok (_, l) => some l.vcamOpen
  | .error _ => none

/-- Whether an iteration ended in an early `return` from `run`. -/
def isExit (r : Except Nat (Vfx1.St × Vfx1.Loop) × List Ev) : Bool :=
  match r.1 with
  | .error _ => true
  | .ok _ => false

/-- Final loop state reached by a `Vfx2` interleaving, when it neither
exited nor crashed. -/
def Vfx2.RunRes.loopOf : Vfx2.RunRes → Option Vfx2.Loop
  | .state _ l => some l
  | _ => none

/-- Final loop state reached by a `Srv` interleaving, when the listener did
not crash. -/
def Srv.RunRes.loopOf : Srv.RunRes → Option Srv.Loop
  | .state _ l => some l
  | _ => none

/-- A fixed frame used to instantiate the opaque vendor operations. -/
def probeFrame : Frame := ⟨1280, 720, 0⟩

/-- A concrete instantiation of the vendor collaborator in which every
inference call fails; used by witnesses. -/
def failOps : VendorOps :=
  { greenScreenRun := fun _ => none
    matteToBGR := fun _ => probeFrame
    compositeOverConstant := fun _ _ _ => probeFrame
    lightComposite := fun _ _ => probeFrame
    compositeBG := fun _ _ _ => probeFrame
    bgMissing := fun _ _ => probeFrame
    blurRun := fun _ _ => none
    cpuBlur := fun _ _ => probeFrame
    artifactRun := fun _ => none
    denoiseMissing := fun _ => probeFrame
    uninitFrame := probeFrame
    blurEffPresent := false
    artifactInited := false }

/-! Claim C1 -/

/-- Claim C1, settled as a code bug: a control command with a malformed
numeric payload does not leave the state unchanged with the channel open —
in every listener in the repository the `MODE:`/`BLUR:` branches call
`std::stoi`/`std::stof` with no try/catch, so `MODE:notanumber` raises an
exception that escapes the listener thread and aborts the process
(`std::terminate`), modelled here by the dispatch returning `Except.error`. -/
theorem C1_malformed_mode_aborts :
    isErrU (Vfx1.handleChunk Vfx1.St.init (chars "MODE:notanumber\n")) = true ∧
    isErrU (Vfx1.handleChunk Vfx1.St.init (chars "BLUR:xyz\n")) = true ∧
    isErrU (Vfx2.handleChunk Vfx2.St.init (chars "MODE:notanumber\n")) = true ∧
    isErrU (Srv.handleChunk Srv.St.init (chars "MODE:notanumber\n")) = true := by
  exact ⟨rfl, rfl, rfl, rfl⟩

/-! Claim C6 -/

/-- Dispatching the empty line changes nothing (every branch of
`server.cpp`'s dispatch requires a nonempty command). -/
theorem Srv.handleLine_nil (st : Srv.St) : Srv.handleLine st [] = .ok st := rfl

/-- Dropping empty lines does not change the result of dispatching a list
of lines in order. -/
theorem Srv.handleLines_filter (st : Srv.St) (ls : List (List Char)) :
    Srv.handleLines st (ls.filter (fun l => !l.isEmpty)) = Srv.handleLines st ls := by
  induction ls generalizing st with
  | nil => rfl
  | cons l ls ih =>
    by_cases h : l.isEmpty
    · have hl : l = [] := by cases l <;> simp_all
      subst hl
      simpa [Srv.handleLines, Srv.handleLine_nil] using ih st
    · simp only [List.filter_cons, h, Bool.not_false, Srv.handleLines]
      cases Srv.handleLine st l with
      | error e => rfl
      | ok st2 => exact ih st2

/-- A state in which the virtual camera is disabled and the mode is the
default, used to exhibit the garbled two-command chunk. -/
def c6St : Vfx1.St := { vcamEnabled := false }

/-- Claim C6 counterexample: in `videofx_server.cpp` a single `read` chunk
containing the two commands `VCAM:on` and `MODE:4` is dispatched as one
garbled command and ignored — neither `vcamEnabled` nor the mode changes,
where the claim requires both commands to execute. -/
theorem C6_counterexample :
    Vfx1.handleChunk c6St (chars "VCAM:on\nMODE:4\n") = Except.ok c6St ∧
    c6St.vcamEnabled = false ∧ c6St.compMode = 5 := by
  exact ⟨rfl, rfl, rfl⟩

/-- Claim C6 as amended: in `server.cpp` the bytes of one `read` are split
at every newline and each resulting line is dispatched as one separate
command (the `strtok` loop equals a fold of the single-line dispatch over
the newline-split of the chunk); in particular a chunk carrying
`WINDOW:hidden` and `MODE:4` executes both.  In `videofx_server.cpp` (both
documents) the chunk is instead dispatched as a single command after
stripping one trailing newline. -/
theorem C6_server_splits_on_newlines :
    (∀ (st : Srv.St) (chunk : List Char),
        Srv.handleChunk st chunk = Srv.handleLines st (Srv.splitNL chunk)) ∧
    (∀ st : Srv.St,
        Srv.handleChunk st (chars "WINDOW:hidden\nMODE:4\n") =
          Except.ok { st with windowVisible := false, effectMode := 4 }) ∧
    (∀ (st : Vfx1.St) (chunk : List Char),
        Vfx1.handleChunk st chunk = Vfx1.handleLine st (Vfx1.stripTrailingNL chunk)) := by
  refine ⟨fun st chunk => ?_, fun st => rfl, fun st chunk => rfl⟩
  unfold Srv.handleChunk Srv.strtokLines
  exact Srv.handleLines_filter st (Srv.splitNL chunk)

/-! Claim C8 -/

/-- Claim C8, confirmed: a `VCAM_OPENERS:` payload parsing as the integer
`n` stores `consumerCount = max(n - 1, 0)`; and for every payload — parsed,
negative or unparsable — the stored count after a `VCAM_OPENERS:` or
`VCAM_CONSUMERS:` command is nonnegative, as is `server.cpp`'s
`readConsumerCount` for every consumers-file content. -/
theorem C8_consumer_count_clamped :
    (∀ (st : Vfx1.St) (payload : List Char) (n : Int),
        stoiChars payload = some n →
        Vfx1.handleLine st (chars "VCAM_OPENERS:" ++ payload) =
          Except.ok { st with vcamConsumers := max (n - 1) 0 }) ∧
    (∀ (st st2 : Vfx1.St) (payload : List Char),
        Vfx1.handleLine st (chars "VCAM_OPENERS:" ++ payload) = Except.ok st2 →
        0 ≤ st2.vcamConsumers) ∧
    (∀ (st st2 : Vfx1.St) (payload : List Char),
        Vfx1.handleLine st (chars "VCAM_CONSUMERS:" ++ payload) = Except.ok st2 →
        0 ≤ st2.vcamConsumers) ∧
    (∀ file : Option (List Char), 0 ≤ Srv.readConsumerCount file) := by
  have hredO : ∀ (st : Vfx1.St) (payload : List Char),
      Vfx1.handleLine st (chars "VCAM_OPENERS:" ++ payload) =
        Except.ok { st with vcamConsumers :=
          (if (stoiChars payload).getD 0 - 1 < 0 then 0
           else (stoiChars payload).getD 0 - 1) } := fun _ _ => rfl
  have hredC : ∀ (st : Vfx1.St) (payload : List Char),
      Vfx1.handleLine st (chars "VCAM_CONSUMERS:" ++ payload) =
        Except.ok { st with vcamConsumers :=
          (if (stoiChars payload).getD 0 < 0 then 0
           else (stoiChars payload).getD 0) } := fun _ _ => rfl
  refine ⟨?_, ?_, ?_, ?_⟩
  · intro st payload n h
    rw [hredO, h]
    have hv : (if (some n).getD 0 - 1 < 0 then (0 : Int) else (some n).getD 0 - 1)
        = max (n - 1) 0 := by
      simp only [Option.getD_some]
      split <;> omega
    rw [hv]
  · intro st st2 payload h
    rw [hredO] at h
    injection h with h2
    subst h2
    show 0 ≤ (if (stoiChars payload).getD 0 - 1 < 0 then (0 : Int)
              else (stoiChars payload).getD 0 - 1)
    split <;> omega
  · intro st st2 payload h
    rw [hredC] at h
    injection h with h2
    subst h2
    show 0 ≤ (if (stoiChars payload).getD 0 < 0 then (0 : Int)
              else (stoiChars payload).getD 0)
    split <;> omega
  · intro file
    cases file with
    | none => simp [Srv.readConsumerCount]
    | some s =>
      simp only [Srv.readConsumerCount]
      split <;> omega

/-- Witness for C8 at concrete inputs: `VCAM_OPENERS:5` stores
`max(5-1,0)`; `VCAM_OPENERS:-7` and `VCAM_CONSUMERS:3` store nonnegative
counts; a missing consumers file reads as a nonnegative count. -/
theorem C8_consumer_count_clamped_witness :
    (Vfx1.handleLine Vfx1.St.init (chars "VCAM_OPENERS:" ++ chars "5") =
      Except.ok { Vfx1.St.init with vcamConsumers := max ((5 : Int) - 1) 0 }) ∧
    (0 ≤ ({ Vfx1.St.init with vcamConsumers := 0 } : Vfx1.St).vcamConsumers) ∧
    (0 ≤ ({ Vfx1.St.init with vcamConsumers := 3 } : Vfx1.St).vcamConsumers) ∧
    (0 ≤ Srv.readConsumerCount none) :=
  ⟨C8_consumer_count_clamped.1 Vfx1.St.init (chars "5") 5 (by decide),
   C8_consumer_count_clamped.2.1 Vfx1.St.init
     { Vfx1.St.init with vcamConsumers := 0 } (chars "-7") (by decide),
   C8_consumer_count_clamped.2.2.1 Vfx1.St.init
     { Vfx1.St.init with vcamConsumers := 3 } (chars "3") (by decide),
   C8_consumer_count_clamped.2.2.2 none⟩

/-! Claim C2 -/

/-- `initVirtualCamera` only touches the sink descriptor state, never the
capture flag. -/
theorem Vfx1.vcamInit_cameraActive (l : Vfx1.Loop) (env : Vfx1.Env) (w h : Int) :
    (Vfx1.vcamInit l env w h).cameraActive = l.cameraActive := by
  unfold Vfx1.vcamInit
  split
  · rfl
  · split
    · split <;> rfl
    · rfl

/-- The top-of-loop sink-open step never touches the capture flag. -/
theorem Vfx1.preOpen_cameraActive (st : Vfx1.St) (l : Vfx1.Loop) (env : Vfx1.Env) :
    (if st.vcamEnabled && !l.vcamOpen then Vfx1.vcamInit l env 1280 720
     else l).cameraActive = l.cameraActive := by
  split
  · exact Vfx1.vcamInit_cameraActive l env 1280 720
  · rfl

/-- Every path of the activation step begins by attempting the camera
open. -/
theorem Vfx1.activateStep_events (st : Vfx1.St) (l : Vfx1.Loop) (env : Vfx1.Env) :
    ∃ tl, (Vfx1.activateStep st l env).2 = Ev.camOpenTry :: tl := by
  simp only [Vfx1.activateStep]
  split <;> (repeat' split) <;> exact ⟨_, rfl⟩

/-- When the capture is not active, the active branch of the loop body
attempts the camera open. -/
theorem Vfx1.activeBranch_opens (st : Vfx1.St) (l : Vfx1.Loop) (env : Vfx1.Env)
    (hca : l.cameraActive = false) :
    Ev.camOpenTry ∈ (Vfx1.activeBranch st l env).2 := by
  obtain ⟨tl, htl⟩ := Vfx1.activateStep_events st l env
  unfold Vfx1.activeBranch
  rw [hca]
  simp only [Bool.not_false, if_true]
  rcases hAct : Vfx1.activateStep st l env with ⟨res, evs⟩
  rw [hAct] at htl
  simp only at htl
  subst htl
  cases res with
  | error c => simp
  | ok l3 =>
    simp only
    split
    · simp
    · rcases env.frame with _ | f <;> simp

/-- Claim C2, confirmed: when `windowVisible` (the preview flag) is false
and the virtual camera is disabled or has no consumers, `needCamera` is
false, the iteration leaves the capture released (releasing it within that
iteration if it was active) and performs no EffectEngine call; conversely,
when `needCamera` holds while the capture is inactive, the capture open is
attempted in that same iteration. -/
theorem C2_idle_invariant_and_activation :
    ∀ (st : Vfx1.St) (loop : Vfx1.Loop) (env : Vfx1.Env),
      ((st.showPreview = false ∧ (st.vcamEnabled = false ∨ st.vcamConsumers ≤ 0)) →
        Vfx1.needCamera st = false ∧
        camActiveAfter (Vfx1.iteration st loop env) = some false ∧
        Ev.effectRun ∉ (Vfx1.iteration st loop env).2 ∧
        (loop.cameraActive = true → Ev.camRelease ∈ (Vfx1.iteration st loop env).2)) ∧
      ((Vfx1.needCamera st = true ∧ loop.cameraActive = false) →
        Ev.camOpenTry ∈ (Vfx1.iteration st loop env).2) := by
  intro st loop env
  constructor
  · rintro ⟨h1, h2⟩
    have hnc : Vfx1.needCamera st = false := by
      rcases h2 with h | h
      · simp [Vfx1.needCamera, h1, h]
      · simp [Vfx1.needCamera, h1]
        omega
    refine ⟨hnc, ?_, ?_, ?_⟩
    · simp only [Vfx1.iteration, hnc, Bool.not_false, if_true, camActiveAfter,
        Vfx1.idleStep]
      split <;> (try split) <;> simp_all
    · simp only [Vfx1.iteration, hnc, Bool.not_false, if_true, Vfx1.idleStep]
      split <;> (try split) <;> (try simp_all) <;> (split <;> decide)
    · intro hca
      simp only [Vfx1.iteration, hnc, Bool.not_false, if_true, Vfx1.idleStep,
        Vfx1.preOpen_cameraActive, hca]
      (try split) <;> (try simp_all) <;> (split <;> decide)
  · rintro ⟨hnc, hca⟩
    simp only [Vfx1.iteration, hnc, Bool.not_true, Bool.false_eq_true, if_false]
    exact Vfx1.activeBranch_opens st _ env
      ((Vfx1.preOpen_cameraActive st loop env).trans hca)

/-- A state demanding neither preview nor consumers, with an active capture,
to exercise the idle branch of C2. -/
def c2IdleSt : Vfx1.St := { vcamEnabled := false }

/-- A loop state with the capture active and the sink open. -/
def c2IdleLoop : Vfx1.Loop := { cameraActive := true, vcamOpen := true }

/-- A state with a consumer demanding the camera, to exercise the
activation part of C2. -/
def c2ActiveSt : Vfx1.St := { vcamConsumers := 2 }

/-- A benign environment: every device call succeeds, the camera negotiates
1280x720 and produces a frame, and every inference call fails. -/
def probeEnv : Vfx1.Env :=
  { vcamOpenOk := true, vcamFmtOk := true, camOpenOk := true,
    negotiatedW := 1280, negotiatedH := 720, allocOk := true,
    frame := some ⟨1280, 720, 42⟩, bgLoad := none, key := none, ops := failOps }

/-- Witness for C2 at concrete inputs: with preview off and the virtual
camera disabled, an iteration from an active capture releases it, calls no
effect, and emits no open attempt is required; with two consumers and an
inactive capture, the same environment produces an open attempt. -/
theorem C2_idle_invariant_and_activation_witness :
    Vfx1.needCamera c2IdleSt = false ∧
    camActiveAfter (Vfx1.iteration c2IdleSt c2IdleLoop probeEnv) = some false ∧
    Ev.effectRun ∉ (Vfx1.iteration c2IdleSt c2IdleLoop probeEnv).2 ∧
    Ev.camRelease ∈ (Vfx1.iteration c2IdleSt c2IdleLoop probeEnv).2 ∧
    Ev.camOpenTry ∈ (Vfx1.iteration c2ActiveSt Vfx1.Loop.init probeEnv).2 := by
  have h1 := (C2_idle_invariant_and_activation c2IdleSt c2IdleLoop probeEnv).1
    ⟨rfl, Or.inl rfl⟩
  have h2 := (C2_idle_invariant_and_activation c2ActiveSt Vfx1.Loop.init probeEnv).2
    ⟨by decide, rfl⟩
  exact ⟨h1.1, h1.2.1, h1.2.2.1, h1.2.2.2 rfl, h2⟩

/-! Claim C3 -/

/-- `processFrame` returns the unmodified source frame when the
green-screen inference fails, whatever the mode. -/
theorem Vfx1.processFrame_fallback (ops : VendorOps) (bg : Option Frame) (src : Frame)
    (mode : Int) (h : ops.greenScreenRun src = none) :
    Vfx1.processFrame ops bg src mode = src := by
  unfold Vfx1.processFrame
  rw [h]

/-- The background step does not touch the `vcamEnabled` flag. -/
theorem Vfx1.bgStep_vcamEnabled (st : Vfx1.St) (l : Vfx1.Loop) (env : Vfx1.Env) :
    (Vfx1.bgStep st l env).1.vcamEnabled = st.vcamEnabled := by
  unfold Vfx1.bgStep
  split <;> rfl

/-- The background step does not touch the frame-processing mode. -/
theorem Vfx1.bgStep_compMode (st : Vfx1.St) (l : Vfx1.Loop) (env : Vfx1.Env) :
    (Vfx1.bgStep st l env).1.compMode = st.compMode := by
  unfold Vfx1.bgStep
  split <;> rfl

/-- The background step does not touch the sink descriptor. -/
theorem Vfx1.bgStep_vcamOpen (st : Vfx1.St) (l : Vfx1.Loop) (env : Vfx1.Env) :
    (Vfx1.bgStep st l env).2.vcamOpen = l.vcamOpen := by
  unfold Vfx1.bgStep
  split <;> rfl

/-- The preview toggling does not touch the sink descriptor. -/
theorem Vfx1.previewToggle_vcamOpen (st : Vfx1.St) (l : Vfx1.Loop) :
    (Vfx1.previewToggle st l).vcamOpen = l.vcamOpen := by
  unfold Vfx1.previewToggle
  split <;> (try split) <;> rfl

/-- When the inference fails on the captured frame, the frame-processing
step writes exactly that frame to the (open, enabled) virtual camera. -/
theorem Vfx1.frameStep_writes_raw (st : Vfx1.St) (loop : Vfx1.Loop) (env : Vfx1.Env)
    (f : Frame) (hv : st.vcamEnabled = true) (ho : loop.vcamOpen = true)
    (hfail : env.ops.greenScreenRun f = none) :
    Ev.vcamWrite f ∈ (Vfx1.frameStep st loop env f).2.2 := by
  unfold Vfx1.frameStep
  have h1 : (Vfx1.bgStep st loop env).1.vcamEnabled = true :=
    (Vfx1.bgStep_vcamEnabled st loop env).trans hv
  have h2 : (Vfx1.previewToggle (Vfx1.bgStep st loop env).1
      (Vfx1.bgStep st loop env).2).vcamOpen = true :=
    (Vfx1.previewToggle_vcamOpen _ _).trans ((Vfx1.bgStep_vcamOpen st loop env).trans ho)
  simp only [h1, h2, Bool.and_self, if_true]
  split <;> simp [Vfx1.processFrame_fallback env.ops _ f _ hfail]

/-- With the capture active, an enabled virtual camera, an open sink, a
captured frame and a failing inference, the active branch does not exit and
writes the raw frame. -/
theorem Vfx1.activeBranch_fallback (st : Vfx1.St) (l : Vfx1.Loop) (env : Vfx1.Env)
    (f : Frame) (hca : l.cameraActive = true) (hv : st.vcamEnabled = true)
    (ho : l.vcamOpen = true) (hf : env.frame = some f)
    (hfail : env.ops.greenScreenRun f = none) :
    isExit (Vfx1.activeBranch st l env) = false ∧
    Ev.vcamWrite f ∈ (Vfx1.activeBranch st l env).2 := by
  unfold Vfx1.activeBranch
  simp only [hca, hf, Bool.not_true, Bool.false_eq_true, if_false]
  constructor
  · rfl
  · simpa using Vfx1.frameStep_writes_raw st l env f hv ho hfail

/-- Claim C3, confirmed: when the EffectEngine inference (`NvVFX_Run` on
the green-screen effect) fails for a frame, `processFrame` (first document)
and `VideoFXProcessor::process` (`server.cpp`) return the unmodified source
frame for every mode; and in the relay iteration the frame written to the
virtual sink that iteration is exactly the captured frame, with the loop
continuing (no exit, no dropped frame). -/
theorem C3_effect_failure_passthrough :
    (∀ (ops : VendorOps) (bg : Option Frame) (src : Frame) (mode : Int),
        ops.greenScreenRun src = none → Vfx1.processFrame ops bg src mode = src) ∧
    (∀ (ops : VendorOps) (bg : Option Frame) (inited : Bool) (bw bh : Int)
        (f : Frame) (mode : Int),
        ops.greenScreenRun f = none → Srv.process ops bg inited bw bh f mode = f) ∧
    (∀ (st : Vfx1.St) (loop : Vfx1.Loop) (env : Vfx1.Env) (f : Frame),
        loop.cameraActive = true → st.vcamEnabled = true → loop.vcamOpen = true →
        env.frame = some f → env.ops.greenScreenRun f = none →
        Vfx1.needCamera st = true →
        isExit (Vfx1.iteration st loop env) = false ∧
        Ev.vcamWrite f ∈ (Vfx1.iteration st loop env).2) := by
  refine ⟨Vfx1.processFrame_fallback, ?_, ?_⟩
  · intro ops bg inited bw bh f mode h
    unfold Srv.process
    split
    · rfl
    · split
      · rfl
      · rw [h]
  · intro st loop env f hca hv ho hf hfail hnc
    have hpre : (if st.vcamEnabled && !loop.vcamOpen then
        Vfx1.vcamInit loop env 1280 720 else loop) = loop := by
      rw [hv, ho]
      rfl
    simp only [Vfx1.iteration, hnc, Bool.not_true, Bool.false_eq_true, if_false, hpre]
    exact Vfx1.activeBranch_fallback st _ env f hca hv ho hf hfail

/-- Witness for C3 at concrete inputs: with a failing engine, the processed
frame equals the source frame in both implementations, and the iteration
writes the captured frame. -/
theorem C3_effect_failure_passthrough_witness :
    Vfx1.processFrame failOps none ⟨1280, 720, 42⟩ 6 = ⟨1280, 720, 42⟩ ∧
    Srv.process failOps none true 1280 720 ⟨1280, 720, 42⟩ 6 = ⟨1280, 720, 42⟩ ∧
    isExit (Vfx1.iteration c2ActiveSt
      { cameraActive := true, vcamOpen := true, buffersAllocated := true }
      probeEnv) = false ∧
    Ev.vcamWrite ⟨1280, 720, 42⟩ ∈ (Vfx1.iteration c2ActiveSt
      { cameraActive := true, vcamOpen := true, buffersAllocated := true }
      probeEnv).2 := by
  have h3 := C3_effect_failure_passthrough.2.2 c2ActiveSt
    { cameraActive := true, vcamOpen := true, buffersAllocated := true }
    probeEnv ⟨1280, 720, 42⟩ rfl rfl rfl rfl rfl (by decide)
  exact ⟨C3_effect_failure_passthrough.1 failOps none ⟨1280, 720, 42⟩ 6 rfl,
    C3_effect_failure_passthrough.2.1 failOps none true 1280 720 ⟨1280, 720, 42⟩ 6 rfl,
    h3.1, h3.2⟩

/-! Claim C10 -/

/-- With the virtual camera disabled, the idle branch writes nothing and
leaves the sink descriptor alone. -/
theorem Vfx1.idleStep_disabled (st : Vfx1.St) (l : Vfx1.Loop)
    (hv : st.vcamEnabled = false) :
    ((Vfx1.idleStep st l).2.filter Ev.isVcamWrite) = [] ∧
    (Vfx1.idleStep st l).1.vcamOpen = l.vcamOpen := by
  unfold Vfx1.idleStep
  simp only [hv, Bool.false_and, Bool.false_eq_true, if_false]
  split <;> simp [Ev.isVcamWrite]

/-- With the virtual camera disabled, the activation step neither touches
the sink descriptor nor emits a write event. -/
theorem Vfx1.activateStep_disabled (st : Vfx1.St) (l : Vfx1.Loop) (env : Vfx1.Env)
    (hv : st.vcamEnabled = false) :
    ((Vfx1.activateStep st l env).2.filter Ev.isVcamWrite) = [] ∧
    (∀ l3, (Vfx1.activateStep st l env).1 = .ok l3 → l3.vcamOpen = l.vcamOpen) := by
  unfold Vfx1.activateStep
  simp only [hv, Bool.false_eq_true, if_false]
  constructor
  · split <;> (repeat' split) <;> simp [Ev.isVcamWrite]
  · intro l3 h3
    revert h3
    split <;> (repeat' split) <;> intro h3 <;>
      first
        | (injection h3 with h4; subst h4; rfl)
        | exact absurd h3 (by simp)

/-- With the virtual camera disabled, the frame step writes nothing to the
sink and leaves its descriptor alone. -/
theorem Vfx1.frameStep_disabled (st : Vfx1.St) (l : Vfx1.Loop) (env : Vfx1.Env)
    (f : Frame) (hv : st.vcamEnabled = false) :
    ((Vfx1.frameStep st l env f).2.2.filter Ev.isVcamWrite) = [] ∧
    (Vfx1.frameStep st l env f).2.1.vcamOpen = l.vcamOpen := by
  unfold Vfx1.frameStep
  have h1 : (Vfx1.bgStep st l env).1.vcamEnabled = false :=
    (Vfx1.bgStep_vcamEnabled st l env).trans hv
  simp only [h1, Bool.and_false, Bool.false_eq_true, if_false]
  refine ⟨?_, (Vfx1.previewToggle_vcamOpen _ _).trans (Vfx1.bgStep_vcamOpen st l env)⟩
  split <;> simp [Ev.isVcamWrite]

/-- Claim C10, confirmed: in every relay iteration executed while
`vcamEnabled` is false, nothing at all is written to the virtual camera —
no processed frame and no idle placeholder — and the sink descriptor is
left exactly as it was (open if it was open), even while capture runs for
a preview. -/
theorem C10_vcam_disabled_never_written :
    ∀ (st : Vfx1.St) (loop : Vfx1.Loop) (env : Vfx1.Env),
      st.vcamEnabled = false →
      ((Vfx1.iteration st loop env).2.filter Ev.isVcamWrite) = [] ∧
      (isExit (Vfx1.iteration st loop env) = false →
        vcamOpenAfter (Vfx1.iteration st loop env) = some loop.vcamOpen) := by
  intro st loop env hv
  have hpre : (if st.vcamEnabled && !loop.vcamOpen then
      Vfx1.vcamInit loop env 1280 720 else loop) = loop := by
    rw [hv]
    rfl
  simp only [Vfx1.iteration, hpre]
  split
  · have h := Vfx1.idleStep_disabled st
      { loop with lastNeedCamera := Vfx1.needCamera st } hv
    exact ⟨h.1, fun _ => congrArg some h.2⟩
  · unfold Vfx1.activeBranch
    split
    · -- capture inactive: activation step runs
      have hAS := Vfx1.activateStep_disabled st
        { loop with lastNeedCamera := Vfx1.needCamera st } env hv
      rcases hAct : (Vfx1.activateStep st
          { loop with lastNeedCamera := Vfx1.needCamera st } env) with ⟨res, evs⟩
      rw [hAct] at hAS
      cases res with
      | error c => exact ⟨hAS.1, fun hx => absurd hx (by simp [isExit])⟩
      | ok l3 =>
        have hl3 : l3.vcamOpen = loop.vcamOpen := hAS.2 l3 rfl
        simp only
        split
        · exact ⟨hAS.1, fun _ => congrArg some hl3⟩
        · rcases env.frame with _ | f
          · exact ⟨hAS.1, fun _ => congrArg some hl3⟩
          · have hFS := Vfx1.frameStep_disabled st l3 env f hv
            simp only [isExit, vcamOpenAfter, List.filter_append]
            refine ⟨?_, fun _ => ?_⟩
            · rw [hAS.1, hFS.1]
              rfl
            · rw [hFS.2, hl3]
    · -- capture already active: straight to the frame step
      rename_i hpb
      have hca3 : loop.cameraActive = true := by
        simpa using hpb
      simp only [hca3, Bool.not_true, Bool.false_eq_true, if_false]
      rcases env.frame with _ | f
      · exact ⟨rfl, fun _ => rfl⟩
      · have hFS := Vfx1.frameStep_disabled st
          { loop with lastNeedCamera := Vfx1.needCamera st, cameraActive := true } env f hv
        refine ⟨?_, fun _ => ?_⟩
        · simpa using hFS.1
        · simpa [vcamOpenAfter] using congrArg some hFS.2

/-- Witness for C10 at a concrete input: preview on, virtual camera
disabled, capture active — the iteration writes nothing to the sink and the
(open) descriptor stays open. -/
theorem C10_vcam_disabled_never_written_witness :
    ((Vfx1.iteration { vcamEnabled := false, showPreview := true }
        { cameraActive := true, vcamOpen := true, buffersAllocated := true }
        probeEnv).2.filter Ev.isVcamWrite) = [] ∧
    vcamOpenAfter (Vfx1.iteration { vcamEnabled := false, showPreview := true }
        { cameraActive := true, vcamOpen := true, buffersAllocated := true }
        probeEnv) = some true := by
  have h := C10_vcam_disabled_never_written { vcamEnabled := false, showPreview := true }
    { cameraActive := true, vcamOpen := true, buffersAllocated := true } probeEnv rfl
  exact ⟨h.1, h.2 rfl⟩

/-! Claim C4 -/

/-- An idle state with the virtual camera disabled. -/
def c4St : Vfx1.St := { vcamEnabled := false }

/-- A loop state with the sink open, negotiated at 1280x720. -/
def c4Loop : Vfx1.Loop := { vcamOpen := true, vcamNegotiated := some (1280, 720) }

/-- Claim C4 counterexample: an idle `videofx_server.cpp` iteration with the
sink open but `vcamEnabled=false` performs no write at all — the open sink
receives no idle placeholder that tick, where the claim requires one
whenever the relay is idle and the sink is open. -/
theorem C4_counterexample :
    c4St.vcamEnabled = false ∧ c4Loop.vcamOpen = true ∧
    Vfx1.needCamera c4St = false ∧
    (Vfx1.iteration c4St c4Loop probeEnv).2 = [] := by
  exact ⟨rfl, rfl, rfl, rfl⟩

/-- A benign environment for `server.cpp` iterations: the consumers file is
missing (count 0), device calls succeed, the camera negotiates 1920x1080
and produces a frame, and the inference fails. -/
def srvProbeEnv : Srv.Env :=
  { consumersFile := none, autoDetect := chars "/dev/video0", camOpenOk := true,
    negotiatedW := 1920, negotiatedH := 1080, allocOk := true, vcamOpenOk := true,
    frame := some ⟨1920, 1080, 3⟩, bgLoad := none, ops := failOps }

/-- Claim C4 as amended: `server.cpp` writes the idle placeholder on every
idle iteration in which the sink is open, sized by the `idleDims` rule
(last-negotiated geometry, 1280x720 where none was stored);
`videofx_server.cpp` writes an idle placeholder only while `vcamEnabled` is
also true, and that placeholder is always 1280x720. -/
theorem C4_idle_placeholder_amended :
    (∀ (st : Srv.St) (loop : Srv.Loop) (env : Srv.Env),
        st.windowVisible = false →
        Srv.readConsumerCount env.consumersFile = 0 →
        loop.vcamOpen = true →
        Ev.idleWrite (Srv.idleDims loop.vcamW loop.vcamH).1
            (Srv.idleDims loop.vcamW loop.vcamH).2 ∈ (Srv.iteration st loop env).2.2) ∧
    (∀ (st : Vfx1.St) (loop : Vfx1.Loop) (env : Vfx1.Env),
        st.vcamEnabled = true → st.showPreview = false → st.vcamConsumers ≤ 0 →
        loop.vcamOpen = true →
        Ev.idleWrite 1280 720 ∈ (Vfx1.iteration st loop env).2) := by
  constructor
  · intro st loop env hw hc ho
    simp only [Srv.iteration, hc, hw]
    norm_num
    split <;> simp [ho]
  · intro st loop env hv hp hc ho
    have hnc : Vfx1.needCamera st = false := by
      simp [Vfx1.needCamera, hp]
      omega
    have hpre : (if st.vcamEnabled && !loop.vcamOpen then
        Vfx1.vcamInit loop env 1280 720 else loop) = loop := by
      rw [hv, ho]
      rfl
    simp only [Vfx1.iteration, hnc, Bool.not_false, if_true, hpre, Vfx1.idleStep]
    by_cases hca : loop.cameraActive = true
    · simp [hca, hv, ho]
    · simp [hca, hv, ho]

/-- Witness for the amended C4 at concrete inputs: an idle `server.cpp`
iteration with the sink negotiated at 640x480 writes a 640x480 idle frame;
an idle `videofx_server.cpp` iteration with the virtual camera enabled and
open writes the 1280x720 idle frame. -/
theorem C4_idle_placeholder_amended_witness :
    Ev.idleWrite 640 480 ∈ (Srv.iteration { Srv.St.init with windowVisible := false }
      { Srv.Loop.init with vcamOpen := true, vcamW := 640, vcamH := 480 }
      srvProbeEnv).2.2 ∧
    Ev.idleWrite 1280 720 ∈ (Vfx1.iteration { Vfx1.St.init with vcamEnabled := true }
      c2IdleLoop probeEnv).2 := by
  have h1 := C4_idle_placeholder_amended.1 { Srv.St.init with windowVisible := false }
    { Srv.Loop.init with vcamOpen := true, vcamW := 640, vcamH := 480 }
    srvProbeEnv rfl rfl rfl
  have h2 := C4_idle_placeholder_amended.2 { Vfx1.St.init with vcamEnabled := true }
    c2IdleLoop probeEnv rfl rfl (by decide) rfl
  exact ⟨by simpa using h1, h2⟩

/-! Claim C5 -/

/-- Initial globals for the C5 run (all defaults; `embeddedPreview` is true
so the camera is demanded). -/
def c5St : Vfx2.St := {}

/-- A loop state actively capturing at 1280x720 with GPU buffers allocated
at 1280x720. -/
def c5Loop : Vfx2.Loop :=
  { cameraActive := true, buffersAllocated := true, width := 1280, height := 720,
    currentDevice := chars "/dev/video0", lastNeedCamera := true,
    vcamOpen := true, vcamW := 1280, vcamH := 720, bufW := 1280, bufH := 720 }

/-- An environment in which the camera renegotiates at 640x480. -/
def c5Env : Vfx2.Env :=
  { vcamOpenOk := true, vcamFmtOk := true, camOpenOk := true,
    negotiatedW := 640, negotiatedH := 480, allocOk := true,
    frame := some ⟨640, 480, 3⟩, bgLoad := none, key := none, ops := failOps }

/-- The failing run: a `RESOLUTION:640x480` command observed mid-activity,
then two relay iterations (teardown, then reactivation at 640x480). -/
def c5Acts : List Vfx2.Act :=
  [.cmd (chars "RESOLUTION:640x480\n"), .tick c5Env, .tick c5Env]

/-- Claim C5, settled as a code bug, evaluated at the failing input: in the
BluCast document of `videofx_server.cpp`, after `RESOLUTION:640x480`
arrives mid-activity, the settings-change path releases the capture but
leaves `buffersAllocated` set, so the reactivation at 640x480 performs no
reallocation: the relay ends up actively processing 640x480 frames while
the GPU buffers are still the 1280x720 ones — the buffers are used at a
size different from the active capture resolution, which the claim (and
spec invariant) forbid. -/
theorem C5_stale_buffers_after_resolution_change :
    ((Vfx2.runAccum c5St c5Loop c5Acts).1.loopOf.map
        (fun l => (l.cameraActive, l.width, l.height, l.bufW, l.bufH,
                   l.buffersAllocated)))
      = some (true, 640, 480, 1280, 720, true) ∧
    countAlloc (Vfx2.runAccum c5St c5Loop c5Acts).2 = 0 ∧
    (1280 : Int) ≠ 640 := by
  exact ⟨rfl, rfl, by decide⟩

/-! Claim C7 -/

/-- The benign environment with the GPU buffer allocation failing. -/
def c7BadEnv : Vfx1.Env := { probeEnv with allocOk := false }

/-- Interleaving that reaches the failing allocation: a consumer appears,
then one relay iteration activates the capture and hits the allocation. -/
def c7Acts : List Vfx1.Act :=
  [.cmd (chars "VCAM_CONSUMERS:1\n"), .tick c7BadEnv]

/-- Claim C7 counterexample: with a fully successful EffectEngine
initialization, a GPU buffer allocation failure during a mid-run activation
makes `run` return 1, so the process exits with code 1 — the claim that
exit code 1 occurs only on initialization failure at startup is false.  (A
clean `QUIT` does exit 0.) -/
theorem C7_counterexample :
    Vfx1.mainModel true c7Acts = Vfx1.Outcome.done 1 ∧
    Vfx1.mainModel true [Vfx1.Act.cmd (chars "QUIT\n")] = Vfx1.Outcome.done 0 := by
  exact ⟨rfl, rfl⟩

/-- With a succeeding allocation, the activation step cannot return an
error. -/
theorem Vfx1.activateStep_ok (st : Vfx1.St) (l : Vfx1.Loop) (env : Vfx1.Env)
    (ha : env.allocOk = true) (c : Nat) :
    (Vfx1.activateStep st l env).1 ≠ Except.error c := by
  unfold Vfx1.activateStep
  simp only [ha, Bool.not_true, Bool.false_eq_true, if_false]
  split <;> (repeat' split) <;> simp

/-- With a succeeding allocation, the active branch cannot return an
error other than through the (unreachable) allocation failure: it never
errors. -/
theorem Vfx1.activeBranch_ok (st : Vfx1.St) (l : Vfx1.Loop) (env : Vfx1.Env)
    (ha : env.allocOk = true) (c : Nat) :
    (Vfx1.activeBranch st l env).1 ≠ Except.error c := by
  unfold Vfx1.activeBranch
  rcases hP : (if (!l.cameraActive) = true then Vfx1.activateStep st l env
      else (Except.ok l, ([] : List Ev))) with ⟨res, evs⟩
  have hres : res ≠ Except.error c := by
    revert hP
    split
    · intro hP
      have := Vfx1.activateStep_ok st l env ha c
      rw [hP] at this
      exact this
    · intro hP
      have : (Except.ok l : Except Nat Vfx1.Loop) = res := congrArg Prod.fst hP
      rw [← this]
      simp
  cases res with
  | error cc => simpa using hres
  | ok l3 =>
    simp only
    split
    · simp
    · rcases env.frame with _ | f <;> simp

/-- With a succeeding allocation, a relay iteration never exits `run`. -/
theorem Vfx1.iteration_ok (st : Vfx1.St) (loop : Vfx1.Loop) (env : Vfx1.Env)
    (ha : env.allocOk = true) (c : Nat) :
    (Vfx1.iteration st loop env).1 ≠ Except.error c := by
  simp only [Vfx1.iteration]
  split
  · simp
  · exact Vfx1.activeBranch_ok st _ env ha c

/-- Claim C7 as amended: the process exits 1 when the EffectEngine
initialization fails at startup, and also when a GPU buffer allocation
fails during a (re)activation; with the run flag cleared (`QUIT`/signal)
the loop exits with code 0; and an interleaving in which every reached
allocation succeeds never produces exit code 1 — all other per-frame errors
are absorbed. -/
theorem C7_exit_codes_amended :
    (∀ acts, Vfx1.mainModel false acts = Vfx1.Outcome.done 1) ∧
    (∀ (st : Vfx1.St) (loop : Vfx1.Loop) (acts : List Vfx1.Act),
        st.running = false → Vfx1.runSteps st loop acts = Vfx1.Outcome.done 0) ∧
    (∀ (st : Vfx1.St) (loop : Vfx1.Loop) (acts : List Vfx1.Act),
        (∀ e, Vfx1.Act.tick e ∈ acts → e.allocOk = true) →
        Vfx1.runSteps st loop acts ≠ Vfx1.Outcome.done 1) := by
  refine ⟨fun acts => rfl, ?_, ?_⟩
  · intro st loop acts h
    cases acts with
    | nil => simp [Vfx1.runSteps, h]
    | cons a rest => simp [Vfx1.runSteps, h]
  · intro st loop acts
    induction acts generalizing st loop with
    | nil =>
      intro _
      unfold Vfx1.runSteps
      split <;> simp
    | cons a rest ih =>
      intro h
      unfold Vfx1.runSteps
      by_cases hr : st.running = true
      · simp only [hr, Bool.not_true, Bool.false_eq_true, if_false]
        cases a with
        | cmd ch =>
          rcases hCh : Vfx1.handleChunk st ch with e2 | st2 <;> simp only [hCh]
          · intro hx
            exact Vfx1.Outcome.noConfusion hx
          · exact ih st2 loop (fun e he => h e (List.mem_cons_of_mem _ he))
        | tick e =>
          dsimp only
          have ha : e.allocOk = true := h e (List.mem_cons_self _ _)
          have hok := Vfx1.iteration_ok st loop e ha
          rcases hIt : Vfx1.iteration st loop e with ⟨res, evs⟩
          rw [hIt] at hok
          cases res with
          | error cc => exact (hok cc rfl).elim
          | ok p =>
            rcases p with ⟨st2, l2⟩
            dsimp only
            exact ih st2 l2 (fun e2 he => h e2 (List.mem_cons_of_mem _ he))
      · have hr2 : st.running = false := by simpa using hr
        simp [hr2]

/-- Witness for the amended C7 at concrete inputs. -/
theorem C7_exit_codes_amended_witness :
    Vfx1.mainModel false [] = Vfx1.Outcome.done 1 ∧
    Vfx1.runSteps { Vfx1.St.init with running := false } Vfx1.Loop.init []
      = Vfx1.Outcome.done 0 ∧
    Vfx1.runSteps Vfx1.St.init Vfx1.Loop.init [Vfx1.Act.tick probeEnv]
      ≠ Vfx1.Outcome.done 1 := by
  refine ⟨C7_exit_codes_amended.1 [],
    C7_exit_codes_amended.2.1 { Vfx1.St.init with running := false }
      Vfx1.Loop.init [] rfl,
    C7_exit_codes_amended.2.2 Vfx1.St.init Vfx1.Loop.init
      [Vfx1.Act.tick probeEnv] ?_⟩
  intro e he
  simp only [List.mem_singleton] at he
  cases he
  rfl

/-! Claim C9 -/

/-- Globals already requesting 1920x1080 (window visible by default, so the
camera is demanded). -/
def c9St : Srv.St := { cameraWidth := 1920, cameraHeight := 1080 }

/-- A loop state actively capturing at 1920x1080 with buffers ready. -/
def c9Loop : Srv.Loop :=
  { cameraActive := true, buffersReady := true, curW := 1920, curH := 1080,
    currentDevice := chars "/dev/video0", lastNeedCamera := true,
    vcamOpen := true, vcamW := 1920, vcamH := 1080, vcamFps := 30,
    mainVcamW := 1920, mainVcamH := 1080, bufW := 1920, bufH := 1080 }

/-- The repeated command, as a chunk and as a line. -/
def resCmd : List Char := chars "RESOLUTION:1920x1080\n"

/-- The repeated command as a dispatched line. -/
def resLine : List Char := chars "RESOLUTION:1920x1080"

/-- Interleaving in which the relay consumes the settings flag between the
two identical commands. -/
def c9Interleaved : List Srv.Act :=
  [.cmd resCmd, .tick srvProbeEnv, .tick srvProbeEnv,
   .cmd resCmd, .tick srvProbeEnv, .tick srvProbeEnv]

/-- Interleaving in which both commands are handled before the relay next
checks the flag. -/
def c9Batched : List Srv.Act :=
  [.cmd resCmd, .cmd resCmd, .tick srvProbeEnv, .tick srvProbeEnv]

/-- Claim C9 counterexample: sending `RESOLUTION:1920x1080` twice in
succession with a relay-loop flag check between them produces two buffer
reallocations, not the claimed exactly one — the handler sets
`cameraSettingsChanged` unconditionally, without comparing against the
current resolution. -/
theorem C9_counterexample :
    countAlloc (Srv.runAccum c9St c9Loop c9Interleaved).2 = 2 ∧ (2 : Nat) ≠ 1 := by
  exact ⟨rfl, by decide⟩

/-- Claim C9 as amended: a repeated identical `RESOLUTION` command is
idempotent on SharedState (dispatching it twice equals dispatching it
once), and it produces exactly one buffer reallocation when both commands
are handled before the relay loop next consumes the settings flag; when the
relay consumes the flag between them, each command causes its own capture
teardown and reallocation. -/
theorem C9_resolution_idempotence_amended :
    countAlloc (Srv.runAccum c9St c9Loop c9Batched).2 = 1 ∧
    (∀ st : Srv.St,
        (Srv.handleLine st resLine).bind (fun s => Srv.handleLine s resLine)
          = Srv.handleLine st resLine) := by
  exact ⟨rfl, fun st => rfl⟩

end ClearCast
